import Mathlib

/-!
Verification of the data-linking and orientation-management subsystem of the
jdaviz image-viewer configuration, as described by its specification.  The
linking and orientation implementation itself is not part of this source
slice (only its test suite is present), so every operation below is modelled
from the specification text and then checked against the claimed properties.
-/

namespace Jdaviz

/-- Modelled from the spec: the rectangular validity/bounding region a
coordinate frame adapter may declare (spec sections 3 and 4.1); the concrete
astropy/gwcs bounding boxes used by the missing imviz linking code are
abstracted to rational intervals. -/
structure BBox where
  xmin : ℚ
  xmax : ℚ
  ymin : ℚ
  ymax : ℚ
deriving DecidableEq

/-- Modelled from the spec: membership of a point in the declared validity
region of an adapter (spec 4.1). -/
def BBox.containsPt (b : BBox) (p : ℚ × ℚ) : Bool :=
  decide (b.xmin ≤ p.1) && decide (p.1 ≤ b.xmax) &&
  decide (b.ymin ≤ p.2) && decide (p.2 ≤ b.ymax)

/-- Modelled from the spec: the closed kind tag of a coordinate frame adapter
(spec 3, 4.1 and the design note of spec 9): no coordinate information, an
affine astrometric solution, or a general possibly bounded solution. -/
inductive AdapterKind
  | noWcs
  | affine
  | general
deriving DecidableEq, BEq

/-- Modelled from the spec: the Coordinate Frame Adapter capability (spec
4.1): pixel-world conversion both ways plus an optional declared bounding
region; the wrapped astropy WCS and gwcs objects are not in the source
slice, so the transforms are abstracted as rational-plane functions. -/
structure Adapter where
  kind : AdapterKind
  pixel_to_world : ℚ × ℚ → ℚ × ℚ
  world_to_pixel : ℚ × ℚ → ℚ × ℚ
  bounding_box : Option BBox

/-- Modelled from the spec: the has_valid_wcs capability check (spec 4.1);
only adapters that actually carry celestial coordinate information qualify
for WCS linking. -/
def Adapter.has_valid_wcs (a : Adapter) : Bool :=
  a.kind != AdapterKind.noWcs

/-- Modelled from the spec: a labelled dataset of the collection (spec 3)
with its coordinate frame adapter; its data array is abstracted as an
evaluation function over a width-by-height integer grid.  The generic
data-collection container itself is an external collaborator (spec 6). -/
structure Dataset where
  label : String
  adapter : Adapter
  width : Nat
  height : Nat
  value : ℚ × ℚ → ℚ

/-- Modelled from the spec: whether a (rounded) pixel position indexes into
the dataset array, used by the value part of the coordinate readout (spec
4.4 step 4). -/
def Dataset.in_array (d : Dataset) (p : ℚ × ℚ) : Bool :=
  decide (0 ≤ round p.1) && decide (round p.1 < (d.width : ℤ)) &&
  decide (0 ≤ round p.2) && decide (round p.2 < (d.height : ℤ))

/-- Modelled from the spec: the tag of a pairwise link (spec 3):
pixel-identity, affine or offset WCS-derived approximation, or a full
general WCS relation.  The affine-versus-offset fitting choice of spec 4.2
is below the granularity of this model; every WCS-derived tag reads back as
a wcs relation. -/
inductive LinkTag
  | pixelIdentity
  | affineLink
  | offsetLink
  | generalWcsLink
deriving DecidableEq, BEq

/-- Modelled from the spec: the user-facing name of the relation of a link
when queried through get_link_type (spec 6). -/
def LinkTag.link_type_name : LinkTag → String
  | .pixelIdentity => "pixels"
  | _ => "wcs"

/-- Modelled from the spec: a pairwise relation of the Link Model between
two labelled datasets (spec 3); data1 and data2 are the endpoint labels. -/
structure Link where
  data1 : String
  data2 : String
  tag : LinkTag
deriving DecidableEq, BEq

/-- Modelled from the spec: the error taxonomy of the linking layer (spec
7); every variant surfaces to callers as a ValueError-class error carrying
the given message. -/
inductive LinkError
  | invalidParameter (msg : String)
  | missingCoordinateFrame (msg : String)
  | linkLookup (msg : String)
  | unsafeStateTransition (msg : String)
deriving DecidableEq, BEq

/-- Modelled from the spec: the two overall linking schemes (spec 4.2). -/
inductive LinkMode
  | pixels
  | wcs
deriving DecidableEq, BEq

/-- Modelled from the spec: the wire name of a linking scheme as passed to
link_data (spec 6). -/
def LinkMode.wire_name : LinkMode → String
  | .pixels => "pixels"
  | .wcs => "wcs"

/-- Modelled from the spec: a synthetic orientation entry (spec 3 and 4.3),
modelled as a distinct entity kind as recommended by the design note of
spec 9: a label, a counterclockwise rotation in degrees and the east-left
flip sense. -/
structure Orientation where
  label : String
  deg_ccw : ℚ
  east_left : Bool
deriving DecidableEq, BEq

/-- Modelled from the spec: per-viewer reference resolution state (spec
4.3): the current reference dataset label and the last explicitly chosen
WCS-mode orientation, when one was ever chosen. -/
structure Viewer where
  id : String
  reference_data : String
  last_wcs_orientation : Option String
deriving DecidableEq, BEq

/-- An exact angle of the form piCoeff * pi + rad radians with rational
coefficients; region rotation angles are reframed exactly in this
representation instead of floating point. -/
structure Angle where
  piCoeff : ℚ
  rad : ℚ
deriving DecidableEq, BEq

/-- Modelled from the spec: a user subset/region entry (spec 3): its stored
geometry is abstracted to the rotation angle of the region, together with
the label of the parent frame it is defined against. -/
structure Subset where
  label : String
  parent : String
  theta : Angle
deriving DecidableEq, BEq

/-- Modelled from the spec: the mutable application state of the linking and
orientation subsystem (spec 2 and 3): the dataset collection, the synthetic
orientations, the atomically replaceable link set, the active scheme, the
per-viewer reference state, the astrowidgets marker names, the subsets and
the orientation plugin option wcs_use_affine. -/
structure State where
  datasets : List Dataset
  orientations : List Orientation
  links : List Link
  mode : LinkMode
  viewers : List Viewer
  markers : List String
  subsets : List Subset
  wcs_use_affine : Bool

/-- Modelled from the spec: the message of the missing-coordinate-frame
failure; it must name that the scheme requires valid WCS (spec 4.2). -/
def wcs_error_msg : String := "WCS linking can only be used if all data have valid WCS"

/-- Modelled from the spec: message raised when no dataset can serve as the
WCS reference (spec 4.4 failure modes). -/
def no_valid_ref_msg : String := "No valid reference data"

/-- Modelled from the spec: message of a link look-up without any reference
dataset present (spec 4.4). -/
def no_ref_lookup_msg : String := "No reference data for link look-up"

/-- Modelled from the spec: message raised by link_data when astrowidgets
markers pin the current scheme (spec 4.2 and 4.3). -/
def marker_link_msg : String := "cannot change link_type when markers are present; clear the markers first"

/-- Modelled from the spec: message raised by the plugin-level link-type
setter when astrowidgets markers pin the current scheme (spec 4.3). -/
def marker_plugin_msg : String := "cannot change linking while astrowidget markers are present; clear the markers first"

/-- Modelled from the spec: the label of the implicitly created default
orientation (spec 3). -/
def default_orientation_label : String := "Default orientation"

/-- Modelled from the spec: the label of the link-graph reference dataset
(spec 3): the single shared first dataset in pixel mode, the first dataset
with a valid celestial adapter in wcs mode, none when there is no data. -/
def State.ref_label (st : State) : Option String :=
  match st.mode with
  | .pixels => st.datasets.head?.map (fun d => d.label)
  | .wcs => (st.datasets.find? (fun d => d.adapter.has_valid_wcs)).map (fun d => d.label)

/-- Modelled from the spec: compute_links (spec 4.2), the missing imviz
linking core.  In pixels mode every non-reference dataset gets a
pixel-identity link to the reference and the computation always succeeds.
In wcs mode every non-reference dataset with a valid celestial adapter gets
a WCS-derived link to the reference; a dataset without one falls back to a
pixel-identity link when the fallback scheme is pixels and otherwise fails
the entire computation with a message naming valid WCS. -/
def compute_links (st : State) (mode : LinkMode) (fallback : Option String)
    (use_affine : Bool) : Except LinkError (List Link) :=
  match mode with
  | .pixels =>
    match st.datasets with
    | [] => .ok []
    | ref :: rest =>
      .ok (rest.map (fun d => { data1 := d.label, data2 := ref.label, tag := LinkTag.pixelIdentity }))
  | .wcs =>
    match st.datasets.find? (fun d => d.adapter.has_valid_wcs) with
    | none => if st.datasets.isEmpty then .ok [] else .error (.missingCoordinateFrame no_valid_ref_msg)
    | some ref =>
      let others := st.datasets.filter (fun d => d.label != ref.label)
      if others.all (fun d => d.adapter.has_valid_wcs) || fallback == some "pixels" then
        .ok (others.map (fun d =>
          if d.adapter.has_valid_wcs then
            { data1 := d.label, data2 := ref.label,
              tag := if use_affine then LinkTag.affineLink else LinkTag.generalWcsLink }
          else
            { data1 := d.label, data2 := ref.label, tag := LinkTag.pixelIdentity }))
      else .error (.missingCoordinateFrame wcs_error_msg)

/-- Modelled from the spec: link_data (spec 4.2 and 6), the missing imviz
helper entry point.  It validates the parameters, refuses to change the
scheme while astrowidgets markers exist, computes the new link set and on
success replaces the stored one atomically together with the recorded
scheme; a computation failure raises only when error_on_fail is set and
otherwise fails silently, leaving the prior state untouched. -/
def link_data (st : State) (link_type : String) (wcs_fallback_scheme : Option String)
    (wcs_use_affine : Bool) (error_on_fail : Bool) : Except LinkError State :=
  if link_type != "pixels" && link_type != "wcs" then
    .error (.invalidParameter ("link_type must be one of: pixels, wcs (got " ++ link_type ++ ")"))
  else if !(wcs_fallback_scheme == none || wcs_fallback_scheme == some "pixels") then
    .error (.invalidParameter "wcs_fallback_scheme must be one of: None, pixels")
  else if !st.markers.isEmpty && link_type != st.mode.wire_name then
    .error (.unsafeStateTransition marker_link_msg)
  else
    let mode := if link_type == "wcs" then LinkMode.wcs else LinkMode.pixels
    match compute_links st mode wcs_fallback_scheme wcs_use_affine with
    | .ok ls => .ok { st with links := ls, mode := mode }
    | .error e => if error_on_fail then .error e else .ok st

/-- Modelled from the spec: all-or-nothing execution of link_data (spec 7
and 9): on any failure the previous state, in particular its stored link
set, is kept completely intact and the error is reported alongside. -/
def link_data_run (st : State) (link_type : String) (wcs_fallback_scheme : Option String)
    (wcs_use_affine : Bool) (error_on_fail : Bool) : State × Option LinkError :=
  match link_data st link_type wcs_fallback_scheme wcs_use_affine error_on_fail with
  | .ok st1 => (st1, none)
  | .error e => (st, some e)

/-- Modelled from the spec: the per-viewer get_link_type look-up against the
reference dataset (spec 4.4 failure modes and spec 6): self for the
reference itself, otherwise the recorded relation; a label without an entry
is reported as not found in data collection external links, and a look-up
without reference data is rejected. -/
def get_link_type (st : State) (label : String) : Except LinkError String :=
  match st.ref_label with
  | none => .error (.linkLookup no_ref_lookup_msg)
  | some ref =>
    if label == ref then .ok "self"
    else
      match st.links.find? (fun l =>
          (l.data1 == label && l.data2 == ref) || (l.data1 == ref && l.data2 == label)) with
      | some l => .ok l.tag.link_type_name
      | none => .error (.linkLookup (label ++ " not found in data collection external links"))

/-- Modelled from the spec: the pairwise get_link_type look-up (spec 6 and
the testable property of spec 8): self for an identical pair, otherwise the
recorded relation between the two labels; a pair with no recorded relation
raises a look-up error naming both labels. -/
def get_link_type_pair (st : State) (a b : String) : Except LinkError String :=
  if a == b then .ok "self"
  else
    match st.links.find? (fun l =>
        (l.data1 == a && l.data2 == b) || (l.data1 == b && l.data2 == a)) with
    | some l => .ok l.tag.link_type_name
    | none => .error (.linkLookup (a ++ " and " ++ b ++ " combo not found"))

/-- Modelled from the spec: clearing the astrowidgets marker layer, after
which relinking is allowed again (spec 4.3). -/
def clear_markers (st : State) : State := { st with markers := [] }

/-- Modelled from the spec: the Orientation plugin link-type setter together
with the Reference Resolution Manager transitions (spec 4.3): existing
astrowidgets markers pin the current scheme; switching to pixels reverts
every viewer to the single shared pixel reference and resets wcs_use_affine
to its default; switching to wcs reverts each viewer to its last explicitly
chosen WCS orientation, defaulting to the default orientation. -/
def set_link_type (st : State) (link_type : String) (wcs_fallback_scheme : Option String)
    (use_affine : Bool) : Except LinkError State :=
  if !st.markers.isEmpty && link_type != st.mode.wire_name then
    .error (.unsafeStateTransition marker_plugin_msg)
  else
    match link_data st link_type wcs_fallback_scheme use_affine true with
    | .error e => .error e
    | .ok st1 =>
      if link_type == "pixels" then
        .ok { st1 with
              viewers := st1.viewers.map (fun v =>
                { v with reference_data := ((st1.datasets.head?).map (fun d => d.label)).getD v.reference_data }),
              wcs_use_affine := true }
      else
        .ok { st1 with
              viewers := st1.viewers.map (fun v =>
                { v with reference_data := v.last_wcs_orientation.getD default_orientation_label }) }

/-- Modelled from the spec: all-or-nothing execution of the plugin link-type
setter (spec 7): the previous state is kept completely intact whenever the
transition is rejected. -/
def set_link_type_run (st : State) (link_type : String) (wcs_fallback_scheme : Option String)
    (use_affine : Bool) : State × Option LinkError :=
  match set_link_type st link_type wcs_fallback_scheme use_affine with
  | .ok st1 => (st1, none)
  | .error e => (st, some e)

/-- Fixed two-decimal rendering of a rational number, used for the
auto-generated orientation labels (spec 4.3). -/
def formatFixed2 (q : ℚ) : String :=
  let n : ℤ := round (q * 100)
  let sign : String := if n < 0 then "-" else ""
  let m : ℕ := n.natAbs
  let ip : ℕ := m / 100
  let fp : ℕ := m % 100
  sign ++ toString ip ++ "." ++ (if fp < 10 then "0" else "") ++ toString fp

/-- Modelled from the spec: the auto-generated orientation label format of
spec 4.3, built from the rotation angle and the flip sense. -/
def auto_orientation_label (angle : ℚ) (east_left : Bool) : String :=
  "CCW " ++ formatFixed2 angle ++ " deg (" ++ (if east_left then "E-left" else "E-right") ++ ")"

/-- Modelled from the spec: add_orientation (spec 4.3), part of the missing
Orientation plugin: it fails unless the current scheme is wcs, creates a
synthetic orientation entry with the given or auto-generated label, and
when set_on_create is set assigns it as the reference of the given viewer,
recording it as the last explicit WCS-mode orientation choice of that viewer. -/
def add_orientation (st : State) (angle : ℚ) (east_left : Bool) (label : Option String)
    (set_on_create : Bool) (viewer_id : String) : Except LinkError State :=
  if st.mode != LinkMode.wcs then
    .error (.unsafeStateTransition "orientation options are only supported when WCS-linked")
  else
    let lbl := label.getD (auto_orientation_label angle east_left)
    let st1 := { st with orientations := st.orientations ++ [⟨lbl, angle, east_left⟩] }
    if set_on_create then
      .ok { st1 with viewers := st1.viewers.map (fun v =>
              if v.id == viewer_id then
                { v with reference_data := lbl, last_wcs_orientation := some lbl }
              else v) }
    else .ok st1

/-- Modelled from the spec: the next-available shared reference used when an
orientation is removed (spec 4.3): an orientation that is already the live
reference of some viewer is preferred, otherwise the first remaining
orientation. -/
def next_shared_reference (st : State) (label : String) : Option String :=
  let others := st.orientations.filter (fun o => o.label != label)
  match st.viewers.find? (fun v =>
      v.reference_data != label && others.any (fun o => o.label == v.reference_data)) with
  | some v => some v.reference_data
  | none => others.head?.map (fun o => o.label)

/-- Modelled from the spec: the geometry adjustment applied to a region when
it is reparented onto a new orientation frame (spec 4.3 and the testable
property of spec 8): the rotation angle is recomputed for the new frame.  A
flip of the east-west sense mirrors the angle (theta becomes pi minus
theta); a relative frame rotation adds the rotation difference, degrees
being converted to radians exactly. -/
def reframe_theta (oldO newO : Orientation) (t : Angle) : Angle :=
  let dpi : ℚ := (newO.deg_ccw - oldO.deg_ccw) / 180
  if oldO.east_left == newO.east_left then ⟨t.piCoeff + dpi, t.rad⟩
  else ⟨1 - t.piCoeff + dpi, -t.rad⟩

/-- Modelled from the spec: the message of the rejected orientation removal
(spec 4.3 and 7). -/
def remove_orientation_msg (label : String) : String :=
  "cannot remove orientation " ++ label ++
    ": it is the reference of a viewer and there is no other orientation to fall back to"

/-- Modelled from the spec: remove_orientation (spec 4.3), part of the
missing Orientation plugin: removal fails when the named orientation is the
reference of a live viewer and no other orientation exists to fall back to;
otherwise the synthetic entry is removed, its links are dropped, viewers
that referenced it fall back to the next-available shared reference, and
every subset anchored to it is reparented onto that reference with its
rotation angle recomputed for the new frame. -/
def remove_orientation (st : State) (label : String) : Except LinkError State :=
  let others := st.orientations.filter (fun o => o.label != label)
  if st.viewers.any (fun v => v.reference_data == label) && others.isEmpty then
    .error (.unsafeStateTransition (remove_orientation_msg label))
  else
    match st.orientations.find? (fun o => o.label == label) with
    | none => .error (.linkLookup (label ++ " not found"))
    | some oldO =>
      match (next_shared_reference st label).bind
          (fun nl => others.find? (fun o => o.label == nl)) with
      | some newO =>
        .ok { st with
              orientations := others,
              links := st.links.filter (fun l => l.data1 != label && l.data2 != label),
              viewers := st.viewers.map (fun v =>
                if v.reference_data == label then { v with reference_data := newO.label } else v),
              subsets := st.subsets.map (fun s =>
                if s.parent == label then
                  { s with parent := newO.label, theta := reframe_theta oldO newO s.theta }
                else s) }
      | none =>
        .ok { st with
              orientations := others,
              links := st.links.filter (fun l => l.data1 != label && l.data2 != label),
              subsets := st.subsets.map (fun s =>
                if s.parent == label then
                  { s with parent := ((st.datasets.head?).map (fun d => d.label)).getD s.parent }
                else s) }

/-- Modelled from the spec: the row-structured result of the Coordinate
Readout Engine (spec 4.4): the pixel position of the active layer together
with an optional data value (row one), the world coordinate shown in its
sexagesimal and decimal rows (rows two and three), and the three
independent reliability flags. -/
structure Readout where
  pixel_x : ℚ
  pixel_y : ℚ
  value_row : Option ℚ
  world_row : Option (ℚ × ℚ)
  row1_unreliable : Bool
  row2_unreliable : Bool
  row3_unreliable : Bool
deriving Repr

/-- Modelled from the spec: the Coordinate Readout Engine (spec 4.4), whose
mouseover implementation is not in the source slice.  The device coordinate
is expressed in the reference frame; under wcs linking the active-layer
pixel position is composed through the pixel-to-world conversion of the
reference adapter and the world-to-pixel conversion of the active adapter;
under pixel
linking it is the identity.  A composed position outside a declared
bounding box marks the affected rows unreliable instead of suppressing the
numbers: under wcs linking all three rows share the flag, under pixel
linking the pixel row stays reliable while the world and value rows are
flagged.  The world rows are omitted only when the active layer has no
valid WCS, the value only when the position does not index the array. -/
def readout (mode : LinkMode) (refd active : Dataset) (domain : ℚ × ℚ) : Readout :=
  let pixel : ℚ × ℚ :=
    match mode with
    | .pixels => domain
    | .wcs => active.adapter.world_to_pixel (refd.adapter.pixel_to_world domain)
  let inActive : Bool :=
    match active.adapter.bounding_box with
    | none => true
    | some b => b.containsPt pixel
  let inRef : Bool :=
    match refd.adapter.bounding_box with
    | none => true
    | some b => b.containsPt domain
  let world : Option (ℚ × ℚ) :=
    if active.adapter.has_valid_wcs then some (active.adapter.pixel_to_world pixel) else none
  let valueQ : Option ℚ :=
    if active.in_array pixel then some (active.value pixel) else none
  match mode with
  | .pixels => ⟨pixel.1, pixel.2, valueQ, world, false, !inActive, !inActive⟩
  | .wcs =>
    let bad : Bool := !(inActive && inRef)
    ⟨pixel.1, pixel.2, valueQ, world, bad, bad, bad⟩

/-- Helper: link_data with scheme wcs succeeds on a non-empty collection in
which every dataset has a valid WCS, replacing the link set and recording
the wcs scheme while touching nothing else. -/
theorem link_data_wcs_all_valid_ok
    (st : State) (d : Dataset) (rest : List Dataset)
    (hds : st.datasets = d :: rest)
    (hall : ∀ x ∈ st.datasets, x.adapter.has_valid_wcs = true)
    (hmk : st.markers = []) (ua eof : Bool) :
    ∃ ls, link_data st "wcs" none ua eof = .ok { st with links := ls, mode := LinkMode.wcs } := by
  have hd : d.adapter.has_valid_wcs = true := hall d (by rw [hds]; exact List.mem_cons_self d rest)
  have hfind : st.datasets.find? (fun x => x.adapter.has_valid_wcs) = some d := by
    rw [hds]; exact List.find?_cons_of_pos rest hd
  have hothers : ((st.datasets.filter (fun x => x.label != d.label)).all
      (fun x => x.adapter.has_valid_wcs)) = true := by
    rw [List.all_eq_true]
    intro x hx
    exact hall x (List.mem_of_mem_filter hx)
  refine ⟨(st.datasets.filter (fun x => x.label != d.label)).map (fun x =>
    if x.adapter.has_valid_wcs then
      { data1 := x.label, data2 := d.label,
        tag := if ua then LinkTag.affineLink else LinkTag.generalWcsLink }
    else { data1 := x.label, data2 := d.label, tag := LinkTag.pixelIdentity }), ?_⟩
  simp [link_data, compute_links, hfind, hmk, hothers]

/-- C10: whenever the link type is changed back to pixels through the
Orientation plugin, the wcs_use_affine option reads true afterwards, even
when it had been explicitly set to false while WCS-linked: switching to
pixel linking resets the affine-approximation flag to its default. -/
theorem c10_pixels_resets_wcs_use_affine
    (ds : List Dataset) (ors : List Orientation) (lks : List Link) (mode : LinkMode)
    (vs : List Viewer) (subs : List Subset) (wa ua : Bool) :
    ∃ st1, set_link_type ⟨ds, ors, lks, mode, vs, [], subs, wa⟩ "pixels" none ua = .ok st1 ∧
      st1.wcs_use_affine = true := by
  cases ds with
  | nil => exact ⟨_, rfl, rfl⟩
  | cons d rest => exact ⟨_, rfl, rfl⟩

/-- C6: after the Orientation plugin switches linking to pixels, every
viewer, including one that was using a non-default orientation as its
reference, ends with the same single shared pixel-reference dataset (the
first dataset of the collection) as its reference_data: pixel mode has
exactly one global reference across all viewers. -/
theorem c6_pixel_mode_single_global_reference
    (d : Dataset) (rest : List Dataset) (ors : List Orientation) (lks : List Link)
    (mode : LinkMode) (vs : List Viewer) (subs : List Subset) (wa ua : Bool) :
    ∃ st1, set_link_type ⟨d :: rest, ors, lks, mode, vs, [], subs, wa⟩ "pixels" none ua = .ok st1 ∧
      st1.datasets = d :: rest ∧
      (∀ v ∈ st1.viewers, v.reference_data = d.label) ∧
      st1.viewers.length = vs.length := by
  refine ⟨_, rfl, rfl, ?_, by simp [set_link_type, link_data, compute_links]⟩
  intro v hv
  simp only [set_link_type, link_data, compute_links] at hv
  simp only [List.mem_map] at hv
  obtain ⟨w, _, hw⟩ := hv
  rw [← hw]
  simp

/-- C2: while at least one astrowidgets marker exists, any attempt to change
the link type through the Orientation plugin raises a ValueError-class
error whose message is about not being able to change linking, and it
leaves the current link type and link set completely unchanged; after the
markers are cleared, the same link-type change succeeds. -/
theorem c2_markers_pin_link_type
    (d : Dataset) (rest : List Dataset) (ors : List Orientation) (lks : List Link)
    (vs : List Viewer) (m : String) (ms : List String) (subs : List Subset) (wa : Bool)
    (hall : ∀ x ∈ (d :: rest), x.adapter.has_valid_wcs = true) :
    set_link_type_run ⟨d :: rest, ors, lks, .pixels, vs, m :: ms, subs, wa⟩ "wcs" none true
      = (⟨d :: rest, ors, lks, .pixels, vs, m :: ms, subs, wa⟩,
         some (.unsafeStateTransition marker_plugin_msg)) ∧
    (∃ t, marker_plugin_msg = "cannot change linking" ++ t) ∧
    (∃ st1, set_link_type
        (clear_markers ⟨d :: rest, ors, lks, .pixels, vs, m :: ms, subs, wa⟩) "wcs" none true
        = .ok st1 ∧ st1.mode = .wcs ∧ st1.markers = []) := by
  refine ⟨rfl, ⟨" while astrowidget markers are present; clear the markers first", by decide⟩, ?_⟩
  obtain ⟨ls, hld⟩ := link_data_wcs_all_valid_ok
    ⟨d :: rest, ors, lks, .pixels, vs, [], subs, wa⟩ d rest rfl hall rfl true true
  refine ⟨⟨d :: rest, ors, ls, .wcs,
    vs.map (fun v => { v with reference_data := v.last_wcs_orientation.getD default_orientation_label }),
    [], subs, wa⟩, ?_, rfl, rfl⟩
  simp [set_link_type, clear_markers, hld]

/-- C8: get_link_type raises a look-up error in exactly the claimed
query-failure cases: a label with no entry in the link graph is reported as
not found in data collection external links; a query without any reference
dataset is rejected with the no-reference message; and a pairwise query for
two labels with no recorded relation raises a look-up error that names both
labels. -/
theorem c8_get_link_type_failures
    (st1 : State) (lbl rl : String)
    (href : st1.ref_label = some rl) (hne : (lbl == rl) = false)
    (hfind : st1.links.find? (fun l =>
        (l.data1 == lbl && l.data2 == rl) || (l.data1 == rl && l.data2 == lbl)) = none)
    (ors2 : List Orientation) (lks2 : List Link) (mode2 : LinkMode) (vs2 : List Viewer)
    (ms2 : List String) (subs2 : List Subset) (wa2 : Bool) (lbl2 : String)
    (st3 : State) (a b : String) (hab : (a == b) = false)
    (hpair : st3.links.find? (fun l =>
        (l.data1 == a && l.data2 == b) || (l.data1 == b && l.data2 == a)) = none) :
    get_link_type st1 lbl
      = .error (.linkLookup (lbl ++ " not found in data collection external links")) ∧
    get_link_type ⟨[], ors2, lks2, mode2, vs2, ms2, subs2, wa2⟩ lbl2
      = .error (.linkLookup no_ref_lookup_msg) ∧
    get_link_type_pair st3 a b
      = .error (.linkLookup (a ++ " and " ++ b ++ " combo not found")) := by
  refine ⟨?_, ?_, ?_⟩
  · simp [get_link_type, href, hne, hfind]
  · cases mode2 <;> simp [get_link_type, State.ref_label]
  · simp [get_link_type_pair, hab, hpair]

/-- C1: for a collection containing a dataset lacking valid WCS, calling
link_data with scheme wcs and no fallback raises, when error_on_fail is
set, a ValueError-class missing-coordinate-frame error whose message names
valid WCS; the same call without error_on_fail fails silently, and in both
failure cases the previously stored state, including its link set, is left
completely unchanged: no partial application. -/
theorem c1_wcs_link_failure_atomic
    (st : State) (r dd : Dataset) (ua ua2 : Bool)
    (hmk : st.markers = [])
    (hfind : st.datasets.find? (fun x => x.adapter.has_valid_wcs) = some r)
    (hdd : dd ∈ st.datasets) (hw : dd.adapter.has_valid_wcs = false)
    (hlbl : (dd.label != r.label) = true) :
    link_data_run st "wcs" none ua true = (st, some (.missingCoordinateFrame wcs_error_msg)) ∧
    (∃ t, wcs_error_msg = t ++ "valid WCS") ∧
    link_data_run st "wcs" none ua2 false = (st, none) := by
  have hmem : dd ∈ st.datasets.filter (fun x => x.label != r.label) :=
    List.mem_filter.mpr ⟨hdd, hlbl⟩
  have hall : ((st.datasets.filter (fun x => x.label != r.label)).all
      (fun x => x.adapter.has_valid_wcs)) = false := by
    rw [Bool.eq_false_iff]
    intro hcon
    rw [List.all_eq_true] at hcon
    have := hcon dd hmem
    simp only [hw] at this
    exact Bool.false_ne_true this
  refine ⟨?_, ⟨"WCS linking can only be used if all data have ", by decide⟩, ?_⟩
  · simp [link_data_run, link_data, compute_links, hfind, hmk, hall]
  · simp [link_data_run, link_data, compute_links, hfind, hmk, hall]

/-- C9: for every non-empty marker-free collection, link_data with scheme
pixels and a valid fallback parameter always succeeds, gives every
non-reference dataset a pixel-identity link to the reference (the first
dataset), and the resulting link set is a spanning structure rooted at the
reference with exactly N minus one links, hence at most N minus one. -/
theorem c9_pixel_linking_spanning
    (d : Dataset) (rest : List Dataset) (ors : List Orientation) (lks : List Link)
    (mode : LinkMode) (vs : List Viewer) (subs : List Subset) (wa : Bool)
    (fb : Option String) (ua eof : Bool)
    (hfb : fb = none ∨ fb = some "pixels") :
    ∃ st1, link_data ⟨d :: rest, ors, lks, mode, vs, [], subs, wa⟩ "pixels" fb ua eof = .ok st1 ∧
      st1.links = rest.map (fun x =>
        { data1 := x.label, data2 := d.label, tag := LinkTag.pixelIdentity }) ∧
      st1.links.length + 1 = (d :: rest).length ∧
      (∀ l ∈ st1.links, l.data2 = d.label ∧ l.tag = LinkTag.pixelIdentity) ∧
      (∀ x ∈ rest, (⟨x.label, d.label, LinkTag.pixelIdentity⟩ : Link) ∈ st1.links) ∧
      st1.mode = LinkMode.pixels := by
  have hstep : link_data ⟨d :: rest, ors, lks, mode, vs, [], subs, wa⟩ "pixels" fb ua eof
      = .ok ⟨d :: rest, ors,
          rest.map (fun x => { data1 := x.label, data2 := d.label, tag := LinkTag.pixelIdentity }),
          LinkMode.pixels, vs, [], subs, wa⟩ := by
    rcases hfb with rfl | rfl <;> simp [link_data, compute_links]
  refine ⟨_, hstep, rfl, by simp, ?_, ?_, rfl⟩
  · intro l hl
    simp only [List.mem_map] at hl
    obtain ⟨x, _, hx⟩ := hl
    rw [← hx]
    exact ⟨rfl, rfl⟩
  · intro x hx
    exact List.mem_map.mpr ⟨x, hx, rfl⟩

/-- C4: for a two-dataset collection in which the first dataset has a valid
celestial WCS (the reference) and the second has none, link_data with
scheme wcs and fallback scheme pixels succeeds, and afterwards the no-WCS
link type of the no-WCS dataset reads pixels while the WCS dataset, being the
reference itself, reads self. -/
theorem c4_wcs_fallback_pixels
    (d1 d2 : Dataset) (ors : List Orientation) (lks : List Link) (mode : LinkMode)
    (vs : List Viewer) (subs : List Subset) (wa ua : Bool)
    (h1 : d1.adapter.has_valid_wcs = true)
    (h2 : d2.adapter.has_valid_wcs = false)
    (h3 : (d2.label != d1.label) = true) :
    ∃ st1, link_data ⟨[d1, d2], ors, lks, mode, vs, [], subs, wa⟩ "wcs" (some "pixels") ua true
        = .ok st1 ∧
      get_link_type st1 d2.label = .ok "pixels" ∧
      get_link_type st1 d1.label = .ok "self" := by
  have hfind : ([d1, d2] : List Dataset).find? (fun x => x.adapter.has_valid_wcs) = some d1 :=
    List.find?_cons_of_pos _ h1
  have hbeq : (d2.label == d1.label) = false := by
    rwa [bne, Bool.not_eq_true'] at h3
  have hstep : link_data ⟨[d1, d2], ors, lks, mode, vs, [], subs, wa⟩ "wcs" (some "pixels") ua true
      = .ok ⟨[d1, d2], ors, [⟨d2.label, d1.label, LinkTag.pixelIdentity⟩],
          LinkMode.wcs, vs, [], subs, wa⟩ := by
    simp [link_data, compute_links, hfind, h2, h3]
  refine ⟨_, hstep, ?_, ?_⟩
  · simp [get_link_type, State.ref_label, hfind, hbeq, LinkTag.link_type_name]
  · simp [get_link_type, State.ref_label, hfind]

/-- C5: switching the link type from wcs to pixels and then back to wcs
restores the reference_data of every viewer to the last WCS-mode orientation
explicitly chosen for it, falling back to the default orientation exactly
when no explicit choice was ever made; the round trip is not required to
return to the original default. -/
theorem c5_round_trip_restores_last_wcs_orientation
    (d : Dataset) (rest : List Dataset) (ors : List Orientation) (lks : List Link)
    (vs : List Viewer) (subs : List Subset) (wa : Bool)
    (hall : ∀ x ∈ (d :: rest), x.adapter.has_valid_wcs = true) :
    ∃ st1 st2,
      set_link_type ⟨d :: rest, ors, lks, .wcs, vs, [], subs, wa⟩ "pixels" none true = .ok st1 ∧
      set_link_type st1 "wcs" none true = .ok st2 ∧
      st2.viewers = vs.map (fun v =>
        { v with reference_data := v.last_wcs_orientation.getD default_orientation_label }) ∧
      st2.mode = .wcs := by
  have hst1 : set_link_type ⟨d :: rest, ors, lks, .wcs, vs, [], subs, wa⟩ "pixels" none true
      = .ok ⟨d :: rest, ors,
          rest.map (fun x => { data1 := x.label, data2 := d.label, tag := LinkTag.pixelIdentity }),
          LinkMode.pixels,
          vs.map (fun v => { v with reference_data := d.label }), [], subs, true⟩ := by
    simp [set_link_type, link_data, compute_links]
  obtain ⟨ls, hld⟩ := link_data_wcs_all_valid_ok
    ⟨d :: rest, ors,
      rest.map (fun x => { data1 := x.label, data2 := d.label, tag := LinkTag.pixelIdentity }),
      LinkMode.pixels,
      vs.map (fun v => { v with reference_data := d.label }), [], subs, true⟩
    d rest rfl hall rfl true true
  refine ⟨_, ⟨d :: rest, ors, ls, LinkMode.wcs,
    (vs.map (fun v => { v with reference_data := d.label })).map (fun v =>
      { v with reference_data := v.last_wcs_orientation.getD default_orientation_label }),
    [], subs, true⟩, hst1, ?_, ?_, rfl⟩
  · simp [set_link_type, hld]
  · rw [List.map_map]
    apply List.map_congr_left
    intro v _
    cases v
    rfl

/-- C3: under WCS linking with a general bounded WCS dataset as the active
layer, a coordinate readout query at a point whose composed pixel position
falls outside the bounding box of that dataset sets the unreliable flag on all
three readout rows while still producing numeric output for each row: the
pixel row carries the composed (extrapolated) position, the world rows are
present, and no exception is raised since the readout is a total
function. -/
theorem c3_readout_out_of_bbox_unreliable
    (refd active : Dataset) (domain : ℚ × ℚ) (bb : BBox)
    (hk : active.adapter.kind = AdapterKind.general)
    (hbb : active.adapter.bounding_box = some bb)
    (hout : bb.containsPt (active.adapter.world_to_pixel
      (refd.adapter.pixel_to_world domain)) = false) :
    (readout LinkMode.wcs refd active domain).row1_unreliable = true ∧
    (readout LinkMode.wcs refd active domain).row2_unreliable = true ∧
    (readout LinkMode.wcs refd active domain).row3_unreliable = true ∧
    ((readout LinkMode.wcs refd active domain).pixel_x,
      (readout LinkMode.wcs refd active domain).pixel_y)
      = active.adapter.world_to_pixel (refd.adapter.pixel_to_world domain) ∧
    (∃ w, (readout LinkMode.wcs refd active domain).world_row = some w) := by
  have hv : active.adapter.has_valid_wcs = true := by
    simp only [Adapter.has_valid_wcs, hk]
    rfl
  simp [readout, hbb, hout, hv]

/-- C7: remove_orientation fails when the named orientation is currently a
reference_data of a viewer and no other orientation exists to fall back to;
otherwise it removes the synthetic orientation entry and reparents every
subset anchored to it onto the next-available shared reference with its
geometry adjusted to the new frame, the rotation angle of the region being
recomputed for the new orientation. -/
theorem c7_remove_orientation_reparents
    (stA : State) (o1 : Orientation)
    (hA1 : stA.orientations = [o1])
    (hA2 : stA.viewers.any (fun v => v.reference_data == o1.label) = true)
    (stB : State) (oldO newO : Orientation) (others0 : List Orientation)
    (hB1 : stB.orientations = oldO :: others0)
    (hB2 : others0.all (fun o => o.label != oldO.label) = true)
    (hB3 : stB.viewers.any (fun v => v.reference_data == oldO.label) = false)
    (hB4 : (next_shared_reference stB oldO.label).bind
        (fun nl => others0.find? (fun o => o.label == nl)) = some newO) :
    remove_orientation stA o1.label
      = .error (.unsafeStateTransition (remove_orientation_msg o1.label)) ∧
    (∃ st1, remove_orientation stB oldO.label = .ok st1 ∧
      st1.orientations = others0 ∧
      (∀ o ∈ st1.orientations, o.label ≠ oldO.label) ∧
      st1.subsets = stB.subsets.map (fun s =>
        if s.parent == oldO.label then
          { s with parent := newO.label, theta := reframe_theta oldO newO s.theta }
        else s) ∧
      (∀ s ∈ stB.subsets, s.parent = oldO.label →
        (⟨s.label, newO.label, reframe_theta oldO newO s.theta⟩ : Subset) ∈ st1.subsets)) := by
  have hfilter : stB.orientations.filter (fun o => o.label != oldO.label) = others0 := by
    rw [hB1, List.filter_cons]
    simp only [bne_self_eq_false, Bool.false_eq_true, if_false]
    exact List.filter_eq_self.mpr (List.all_eq_true.mp hB2)
  have hfind : stB.orientations.find? (fun o => o.label == oldO.label) = some oldO := by
    rw [hB1]
    exact List.find?_cons_of_pos _ (by simp)
  refine ⟨by simp [remove_orientation, hA1, hA2], ?_⟩
  refine ⟨⟨stB.datasets, others0,
    stB.links.filter (fun l => l.data1 != oldO.label && l.data2 != oldO.label),
    stB.mode,
    stB.viewers.map (fun v =>
      if v.reference_data == oldO.label then { v with reference_data := newO.label } else v),
    stB.markers,
    stB.subsets.map (fun s =>
      if s.parent == oldO.label then
        { s with parent := newO.label, theta := reframe_theta oldO newO s.theta }
      else s),
    stB.wcs_use_affine⟩, ?_, rfl, ?_, rfl, ?_⟩
  · simp [remove_orientation, hB3, hfilter, hfind, hB4]
  · intro o ho
    exact bne_iff_ne.mp ((List.all_eq_true.mp hB2) o ho)
  · intro s hs hp
    refine List.mem_map.mpr ⟨s, hs, ?_⟩
    cases s
    subst hp
    simp

/-- Identity affine adapter used by the concrete instances below. -/
def idAdapter : Adapter :=
  { kind := .affine, pixel_to_world := fun p => p, world_to_pixel := fun p => p,
    bounding_box := none }

/-- Adapter without coordinate information. -/
def noWcsAdapter : Adapter :=
  { kind := .noWcs, pixel_to_world := fun p => p, world_to_pixel := fun p => p,
    bounding_box := none }

/-- Bounding box of the concrete general-WCS adapter: a ten-by-ten grid. -/
def bbG : BBox := ⟨0, 9, 0, 9⟩

/-- A bounded general adapter whose transform is a pure offset by ten pixels. -/
def gwcsAdapter : Adapter :=
  { kind := .general, pixel_to_world := fun p => (p.1 + 10, p.2),
    world_to_pixel := fun w => (w.1 - 10, w.2), bounding_box := some bbG }

/-- Concrete dataset with a valid WCS. -/
def dataA : Dataset := ⟨"has_wcs[SCI,1]", idAdapter, 10, 10, fun _ => 1⟩

/-- Concrete dataset without WCS. -/
def dataB : Dataset := ⟨"no_wcs[SCI,1]", noWcsAdapter, 10, 10, fun _ => 0⟩

/-- Concrete dataset with a bounded general WCS. -/
def dataG : Dataset := ⟨"gwcs[DATA]", gwcsAdapter, 10, 10, fun _ => 1⟩

/-- Concrete viewer referencing the WCS dataset. -/
def viewer0 : Viewer := ⟨"imviz-0", "has_wcs[SCI,1]", none⟩

/-- Concrete viewer whose last explicit WCS orientation is North-up
East-left. -/
def viewerN : Viewer := ⟨"imviz-0", "North-up, East-left", some "North-up, East-left"⟩

/-- Concrete viewer whose reference and last explicit WCS orientation is
North-up East-right. -/
def viewerR : Viewer := ⟨"imviz-0", "North-up, East-right", some "North-up, East-right"⟩

/-- The North-up East-left orientation. -/
def orientNUEL : Orientation := ⟨"North-up, East-left", 0, true⟩

/-- The default orientation entry. -/
def orientDef : Orientation := ⟨"Default orientation", 0, true⟩

/-- The North-up East-right orientation. -/
def orientNUER : Orientation := ⟨"North-up, East-right", 0, false⟩

/-- A rotated elliptical subset anchored to the North-up East-left frame
with rotation angle one half radian. -/
def subset1 : Subset := ⟨"Subset 1", "North-up, East-left", ⟨0, 1/2⟩⟩

/-- Concrete state with one WCS and one WCS-less dataset, pixel-linked. -/
def c1_st : State := ⟨[dataA, dataB], [], [], .pixels, [viewer0], [], [], true⟩

theorem c1_witness :
    c1_st.markers = [] ∧ dataB.adapter.has_valid_wcs = false ∧
    (link_data_run c1_st "wcs" none true true
        = (c1_st, some (.missingCoordinateFrame wcs_error_msg)) ∧
      (∃ t, wcs_error_msg = t ++ "valid WCS") ∧
      link_data_run c1_st "wcs" none false false = (c1_st, none)) :=
  ⟨rfl, rfl, c1_wcs_link_failure_atomic c1_st dataA dataB true false rfl rfl
    (List.Mem.tail dataA (List.Mem.head [])) rfl (by decide)⟩

theorem c2_witness :
    (∀ x ∈ [dataA], x.adapter.has_valid_wcs = true) ∧
    (set_link_type_run ⟨[dataA], [], [], .pixels, [viewer0], ["marker"], [], false⟩ "wcs" none true
        = (⟨[dataA], [], [], .pixels, [viewer0], ["marker"], [], false⟩,
           some (.unsafeStateTransition marker_plugin_msg)) ∧
      (∃ t, marker_plugin_msg = "cannot change linking" ++ t) ∧
      (∃ st1, set_link_type
          (clear_markers ⟨[dataA], [], [], .pixels, [viewer0], ["marker"], [], false⟩)
          "wcs" none true = .ok st1 ∧ st1.mode = .wcs ∧ st1.markers = [])) := by
  have hall : ∀ x ∈ [dataA], x.adapter.has_valid_wcs = true := by
    intro x hx
    rw [List.mem_singleton] at hx
    subst hx
    rfl
  exact ⟨hall, c2_markers_pin_link_type dataA [] [] [] [viewer0] "marker" [] [] false hall⟩

theorem c3_witness :
    dataG.adapter.kind = AdapterKind.general ∧
    bbG.containsPt (dataG.adapter.world_to_pixel (dataA.adapter.pixel_to_world (9, 2))) = false ∧
    ((readout LinkMode.wcs dataA dataG (9, 2)).row1_unreliable = true ∧
      (readout LinkMode.wcs dataA dataG (9, 2)).row2_unreliable = true ∧
      (readout LinkMode.wcs dataA dataG (9, 2)).row3_unreliable = true ∧
      ((readout LinkMode.wcs dataA dataG (9, 2)).pixel_x,
        (readout LinkMode.wcs dataA dataG (9, 2)).pixel_y)
        = dataG.adapter.world_to_pixel (dataA.adapter.pixel_to_world (9, 2)) ∧
      (∃ w, (readout LinkMode.wcs dataA dataG (9, 2)).world_row = some w)) := by
  have hout : bbG.containsPt (dataG.adapter.world_to_pixel
      (dataA.adapter.pixel_to_world (9, 2))) = false := by
    have h1 : ¬((0:ℚ) ≤ 9 - 10) := by norm_num
    simp [BBox.containsPt, bbG, dataG, dataA, gwcsAdapter, idAdapter, h1]
  exact ⟨rfl, hout, c3_readout_out_of_bbox_unreliable dataA dataG (9, 2) bbG rfl rfl hout⟩

theorem c4_witness :
    dataA.adapter.has_valid_wcs = true ∧ dataB.adapter.has_valid_wcs = false ∧
    (∃ st1, link_data ⟨[dataA, dataB], [], [], .pixels, [viewer0], [], [], true⟩
        "wcs" (some "pixels") true true = .ok st1 ∧
      get_link_type st1 dataB.label = .ok "pixels" ∧
      get_link_type st1 dataA.label = .ok "self") :=
  ⟨rfl, rfl, c4_wcs_fallback_pixels dataA dataB [] [] .pixels [viewer0] [] true true
    rfl rfl (by decide)⟩

theorem c5_witness :
    (∀ x ∈ [dataA], x.adapter.has_valid_wcs = true) ∧
    (∃ st1 st2,
      set_link_type ⟨[dataA], [], [], .wcs, [viewerN], [], [], false⟩ "pixels" none true
        = .ok st1 ∧
      set_link_type st1 "wcs" none true = .ok st2 ∧
      st2.viewers = [viewerN].map (fun v =>
        { v with reference_data := v.last_wcs_orientation.getD default_orientation_label }) ∧
      st2.mode = .wcs) := by
  have hall : ∀ x ∈ [dataA], x.adapter.has_valid_wcs = true := by
    intro x hx
    rw [List.mem_singleton] at hx
    subst hx
    rfl
  exact ⟨hall, c5_round_trip_restores_last_wcs_orientation dataA [] [] [] [viewerN] [] false hall⟩

/-- Concrete sole-orientation state whose only viewer references it. -/
def stA7 : State := ⟨[], [orientNUEL], [], .wcs, [viewerN], [], [], true⟩

/-- Concrete state mirroring the orientation-removal scenario: three
orientations, a viewer on North-up East-right, and a rotated subset
anchored to North-up East-left. -/
def stB7 : State :=
  ⟨[dataA], [orientNUEL, orientDef, orientNUER], [], .wcs, [viewerR], [], [subset1], true⟩

theorem c7_witness :
    stB7.viewers.any (fun v => v.reference_data == orientNUEL.label) = false ∧
    reframe_theta orientNUEL orientNUER ⟨0, 1/2⟩ = ⟨1, -(1/2)⟩ ∧
    (remove_orientation stA7 orientNUEL.label
        = .error (.unsafeStateTransition (remove_orientation_msg orientNUEL.label)) ∧
      (∃ st1, remove_orientation stB7 orientNUEL.label = .ok st1 ∧
        st1.orientations = [orientDef, orientNUER] ∧
        (∀ o ∈ st1.orientations, o.label ≠ orientNUEL.label) ∧
        st1.subsets = stB7.subsets.map (fun s =>
          if s.parent == orientNUEL.label then
            { s with parent := orientNUER.label,
                     theta := reframe_theta orientNUEL orientNUER s.theta }
          else s) ∧
        (∀ s ∈ stB7.subsets, s.parent = orientNUEL.label →
          (⟨s.label, orientNUER.label, reframe_theta orientNUEL orientNUER s.theta⟩ : Subset)
            ∈ st1.subsets))) :=
  ⟨rfl, by simp [reframe_theta, orientNUEL, orientNUER],
    c7_remove_orientation_reparents stA7 orientNUEL rfl rfl
      stB7 orientNUEL orientNUER [orientDef, orientNUER] rfl (by decide) rfl rfl⟩

/-- Concrete one-dataset pixel-linked state with an empty link set. -/
def st8 : State := ⟨[dataA], [], [], .pixels, [], [], [], true⟩

theorem c8_witness :
    st8.ref_label = some "has_wcs[SCI,1]" ∧
    (get_link_type st8 "foo"
        = .error (.linkLookup ("foo" ++ " not found in data collection external links")) ∧
      get_link_type ⟨[], [], [], .pixels, [], [], [], true⟩ "foo"
        = .error (.linkLookup no_ref_lookup_msg) ∧
      get_link_type_pair st8 "has_wcs_1[SCI,1]" "foo"
        = .error (.linkLookup ("has_wcs_1[SCI,1]" ++ " and " ++ "foo" ++ " combo not found"))) :=
  ⟨rfl, c8_get_link_type_failures st8 "foo" "has_wcs[SCI,1]" rfl (by decide) rfl
    [] [] .pixels [] [] [] true "foo" st8 "has_wcs_1[SCI,1]" "foo" (by decide) rfl⟩

theorem c9_witness :
    ((none : Option String) = none ∨ (none : Option String) = some "pixels") ∧
    (∃ st1, link_data ⟨[dataA, dataB], [], [], .wcs, [viewer0], [], [], true⟩
        "pixels" none true true = .ok st1 ∧
      st1.links = [dataB].map (fun x =>
        { data1 := x.label, data2 := dataA.label, tag := LinkTag.pixelIdentity }) ∧
      st1.links.length + 1 = ([dataA, dataB] : List Dataset).length ∧
      (∀ l ∈ st1.links, l.data2 = dataA.label ∧ l.tag = LinkTag.pixelIdentity) ∧
      (∀ x ∈ [dataB], (⟨x.label, dataA.label, LinkTag.pixelIdentity⟩ : Link) ∈ st1.links) ∧
      st1.mode = LinkMode.pixels) :=
  ⟨Or.inl rfl, c9_pixel_linking_spanning dataA [dataB] [] [] .wcs [viewer0] [] true
    none true true (Or.inl rfl)⟩
